import Mathlib

/-!
Verification of the open-advocacy backend against its specification.

The Python sources are shallowly embedded: Pydantic models become structures,
database tables become lists of rows, each service method becomes a pure
function over those lists, and raised exceptions become `Except` errors.
Python `int` is `Int`; enum members are their string values, because the
aggregation code compares a record's status against the enum's string values
and has a fall-through branch for anything else.
-/

set_option autoImplicit false

namespace OpenAdvocacy

/-- `StatusDistribution` (app/models/pydantic/models.py): seven integer
counters, all defaulting to 0. -/
structure StatusDistribution where
  solid_approval : Int := 0
  leaning_approval : Int := 0
  neutral : Int := 0
  leaning_disapproval : Int := 0
  solid_disapproval : Int := 0
  unknown : Int := 0
  total : Int := 0
deriving Repr, DecidableEq

/-- `EntityStatus.SOLID_APPROVAL` (a `str` enum member). -/
def EntityStatus.SOLID_APPROVAL : String := "solid_approval"

/-- `EntityStatus.LEANING_APPROVAL`. -/
def EntityStatus.LEANING_APPROVAL : String := "leaning_approval"

/-- `EntityStatus.NEUTRAL`. -/
def EntityStatus.NEUTRAL : String := "neutral"

/-- `EntityStatus.LEANING_DISAPPROVAL`. -/
def EntityStatus.LEANING_DISAPPROVAL : String := "leaning_disapproval"

/-- `EntityStatus.SOLID_DISAPPROVAL`. -/
def EntityStatus.SOLID_DISAPPROVAL : String := "solid_disapproval"

/-- `EntityStatusRecord` (pydantic): the fields the verified code reads.
UUIDs are modelled as `Nat`. The status is carried as its string value. -/
structure EntityStatusRecord where
  id : Nat := 0
  entity_id : Nat
  project_id : Nat := 0
  status : String := EntityStatus.NEUTRAL
  notes : Option String := none
deriving Repr, DecidableEq

/-- One step of building the Python dict
`{record.entity_id: record.status for record in status_records}`:
inserting a key that is already present overwrites its value in place,
otherwise the pair is appended (dicts preserve insertion order). -/
def dictInsert (d : List (Nat × String)) (k : Nat) (v : String) :
    List (Nat × String) :=
  if d.any (fun p => p.1 == k) then
    d.map (fun p => if p.1 == k then (p.1, v) else p)
  else d ++ [(k, v)]

/-- The `entity_statuses` dict of `calculate_status_distribution_with_neutrals`
(app/utils/status.py), as an insertion-ordered association list. -/
def entityStatuses (status_records : List EntityStatusRecord) :
    List (Nat × String) :=
  status_records.foldl (fun d r => dictInsert d r.entity_id r.status) []

/-- The body of the `for entity_id, status in entity_statuses.items()` loop:
neutral is skipped, any other status decrements `neutral` and increments the
matching bucket, with unmatched statuses falling through to `unknown`. -/
def processStatus (d : StatusDistribution) (status : String) :
    StatusDistribution :=
  if status = EntityStatus.NEUTRAL then d
  else
    let d1 := { d with neutral := d.neutral - 1 }
    if status = EntityStatus.SOLID_APPROVAL then
      { d1 with solid_approval := d1.solid_approval + 1 }
    else if status = EntityStatus.LEANING_APPROVAL then
      { d1 with leaning_approval := d1.leaning_approval + 1 }
    else if status = EntityStatus.LEANING_DISAPPROVAL then
      { d1 with leaning_disapproval := d1.leaning_disapproval + 1 }
    else if status = EntityStatus.SOLID_DISAPPROVAL then
      { d1 with solid_disapproval := d1.solid_disapproval + 1 }
    else
      { d1 with unknown := d1.unknown + 1 }

/-- `calculate_status_distribution_with_neutrals` (app/utils/status.py;
`ProjectService` carries a textually identical copy): start with every
entity of the jurisdiction counted as neutral, then fold the explicit
records (deduplicated by entity id) through `processStatus`. -/
def calculate_status_distribution_with_neutrals
    (status_records : List EntityStatusRecord) (total_entity_count : Int) :
    StatusDistribution :=
  (entityStatuses status_records).foldl (fun d p => processStatus d p.2)
    { neutral := total_entity_count, total := total_entity_count }

/-- The sum of the six status buckets of a distribution. -/
def sumBuckets (d : StatusDistribution) : Int :=
  d.solid_approval + d.leaning_approval + d.neutral + d.leaning_disapproval +
    d.solid_disapproval + d.unknown

/-- A concrete two-record input used to instantiate theorems: entity 10 with
an explicit approval, entity 11 with an explicit neutral, both for project 7. -/
def sampleRecords : List EntityStatusRecord :=
  [{ id := 1, entity_id := 10, project_id := 7,
     status := EntityStatus.SOLID_APPROVAL, notes := none },
   { id := 2, entity_id := 11, project_id := 7,
     status := EntityStatus.NEUTRAL, notes := none }]

/-- `SQLProvider.list` (app/db/sql.py): `SELECT ... OFFSET skip LIMIT limit`
over the stored rows. The provider's Python defaults are `skip=0, limit=100`;
callers of the Lean model pass them explicitly. -/
def SQLProvider.list (db : List EntityStatusRecord) (skip limit : Nat) :
    List EntityStatusRecord :=
  (db.drop skip).take limit

/-- `SQLProvider.update` (app/db/sql.py): load the row with the given primary
key and overwrite its submitted fields (entity, project, status, notes),
keeping the primary key; every other row is untouched. -/
def SQLProvider.update (db : List EntityStatusRecord) (id : Nat)
    (obj : EntityStatusRecord) : List EntityStatusRecord :=
  db.map (fun row => if row.id == id then { obj with id := row.id } else row)

/-- `StatusService.create_status_record` (app/services/status_service.py):
scan `status_records_provider.list()` — the provider's default page of at
most 100 rows — for an existing record with the same
`(entity_id, project_id)` pair; the first match is updated in place,
otherwise the new record is inserted. -/
def create_status_record (db : List EntityStatusRecord)
    (status_record : EntityStatusRecord) : List EntityStatusRecord :=
  match (SQLProvider.list db 0 100).find? (fun r =>
      r.entity_id == status_record.entity_id &&
        r.project_id == status_record.project_id) with
  | some r => SQLProvider.update db r.id status_record
  | none => db ++ [status_record]

/-- The number of stored records for a given `(entity_id, project_id)` pair. -/
def pairCount (db : List EntityStatusRecord) (e p : Nat) : Nat :=
  db.countP (fun r => r.entity_id == e && r.project_id == p)

/-- A status-records table of 101 rows whose only record for the pair
(entity 0, project 0) is the 101st row — one row past the provider's
default page of 100. -/
def bigStatusTable : List EntityStatusRecord :=
  ((List.range 100).map (fun i =>
    { id := i, entity_id := i + 1, project_id := 1,
      status := EntityStatus.NEUTRAL, notes := none })) ++
    [{ id := 100, entity_id := 0, project_id := 0,
       status := EntityStatus.NEUTRAL, notes := none }]

/-- A newly submitted record for the pair (entity 0, project 0). -/
def newSubmission : EntityStatusRecord :=
  { id := 101, entity_id := 0, project_id := 0,
    status := EntityStatus.SOLID_APPROVAL, notes := some "called office" }

/-- `Project` (pydantic): the fields the distribution path reads. The
`jurisdiction_id` column is nullable. -/
structure Project where
  id : Nat
  jurisdiction_id : Option Nat := none
deriving Repr, DecidableEq

/-- `Entity` (pydantic / ORM): `jurisdiction_id` is a non-nullable column. -/
structure Entity where
  id : Nat
  jurisdiction_id : Nat
deriving Repr, DecidableEq

/-- `SQLProvider.get` on the projects table: primary-key lookup. -/
def getProject (projects : List Project) (id : Nat) : Option Project :=
  projects.find? (fun p => p.id == id)

/-- `SQLProvider.filter(jurisdiction_id=v)` on the entities table:
`WHERE jurisdiction_id = v`. Passing Python `None` compiles to `IS NULL`,
which matches no row because the column is non-nullable. -/
def filterEntitiesByJurisdiction (entities : List Entity)
    (jurisdiction_id : Option Nat) : List Entity :=
  entities.filter (fun e => some e.jurisdiction_id == jurisdiction_id)

/-- `filter_multiple` on the status-records table with
`filters={"project_id": pid}` and `in_filters={"entity_id": entity_ids}`. -/
def filterStatusRecords (records : List EntityStatusRecord) (project_id : Nat)
    (entity_ids : List Nat) : List EntityStatusRecord :=
  records.filter (fun r =>
    r.project_id == project_id && entity_ids.contains r.entity_id)

/-- `ProjectService.get_project_status_distribution`
(app/services/project_service.py): resolve the project (unless one was passed
in), collect all entities of its jurisdiction, return the all-zero
distribution when the project is missing or no entities resolve, and
otherwise aggregate that jurisdiction's status records for the project. -/
def get_project_status_distribution (projects : List Project)
    (entities : List Entity) (status_records : List EntityStatusRecord)
    (project_id : Nat) (project : Option Project) : StatusDistribution :=
  match (match project with
         | some p => some p
         | none => getProject projects project_id) with
  | none => {}
  | some p =>
    let jurisdiction_entities :=
      filterEntitiesByJurisdiction entities p.jurisdiction_id
    if jurisdiction_entities.isEmpty then {}
    else
      let entity_ids := jurisdiction_entities.map Entity.id
      let project_status_records :=
        filterStatusRecords status_records project_id entity_ids
      calculate_status_distribution_with_neutrals project_status_records
        (jurisdiction_entities.length : Int)

/-- FastAPI `HTTPException`, carrying a status code and a detail string. -/
structure HTTPException where
  status_code : Nat
  detail : String
deriving Repr, DecidableEq

/-- `str(e)` of an `HTTPException`: the status code, then a colon and a
space, then the detail (Starlette's `__str__`). -/
def HTTPException.str (e : HTTPException) : String :=
  toString e.status_code ++ ": " ++ e.detail

/-- A Python exception as caught by `except Exception as e`: either a FastAPI
`HTTPException` or any other exception carrying its message. -/
inductive PyExc where
  | http (e : HTTPException)
  | other (message : String)
deriving Repr, DecidableEq

/-- `str(e)` of a caught exception. -/
def PyExc.str : PyExc → String
  | .http e => e.str
  | .other message => message

/-- The upstream outcome of the Nominatim request: the transport layer either
raises, or delivers a response with a status code and the parsed JSON result
list. The numeric lat/lon values play no role in the verified properties and
are carried as integer pairs. -/
inductive NominatimResponse where
  | transportFailure (message : String)
  | response (status_code : Nat) (results : List (Int × Int))
deriving Repr, DecidableEq

/-- The `try:` body of `GeocodingService._geocode_nominatim`
(app/geo/geocoding_service.py): a non-200 response raises HTTP 500
"Geocoding service error", an empty result list raises HTTP 404
"Address not found", otherwise the first result's coordinates are
returned. -/
def geocodeNominatimTry (resp : NominatimResponse) :
    Except PyExc (Int × Int) :=
  match resp with
  | .transportFailure message => .error (.other message)
  | .response status_code results =>
    if status_code ≠ 200 then
      .error (.http { status_code := 500, detail := "Geocoding service error" })
    else
      match results with
      | [] =>
        .error (.http { status_code := 404, detail := "Address not found" })
      | r :: _ => .ok r

/-- `GeocodingService._geocode_nominatim`: the whole `try:` body runs under
`except Exception as e`, which re-raises every failure — including the
deliberately raised HTTP 404 — as an HTTP 500 whose detail wraps the original
exception's string. -/
def geocode_nominatim (resp : NominatimResponse) :
    Except HTTPException (Int × Int) :=
  match geocodeNominatimTry resp with
  | .ok v => .ok v
  | .error e =>
    .error { status_code := 500, detail := "Geocoding error: " ++ e.str }

/-- The upstream outcome of the Google geocoding request: transport failure,
or a parsed body with its status string and result locations. -/
inductive GoogleResponse where
  | transportFailure (message : String)
  | response (status : String) (results : List (Int × Int))
deriving Repr, DecidableEq

/-- The `try:` body of `GeocodingService._geocode_commercial`: a body status
other than "OK" raises HTTP 500; with status "OK" the first result's location
is read (an empty result list raises IndexError). -/
def geocodeCommercialTry (resp : GoogleResponse) : Except PyExc (Int × Int) :=
  match resp with
  | .transportFailure message => .error (.other message)
  | .response status results =>
    if status ≠ "OK" then
      .error (.http { status_code := 500,
                      detail := "Geocoding error: " ++ status })
    else
      match results with
      | [] => .error (.other "list index out of range")
      | r :: _ => .ok r

/-- `GeocodingService._geocode_commercial`, with its own blanket
`except Exception` wrapping every failure as HTTP 500. -/
def geocode_commercial (resp : GoogleResponse) :
    Except HTTPException (Int × Int) :=
  match geocodeCommercialTry resp with
  | .ok v => .ok v
  | .error e =>
    .error { status_code := 500, detail := "Geocoding error: " ++ e.str }

/-- The geocoding fields of `Settings` (app/core/config.py): two optional
strings, both defaulting to `None`. -/
structure Settings where
  GEOCODING_SERVICE : Option String := none
  GEOCODING_API_KEY : Option String := none
deriving Repr, DecidableEq

/-- Python truthiness of an optional string: `None` and the empty string are
falsy. -/
def truthyStr : Option String → Bool
  | none => false
  | some s => !s.isEmpty

/-- `GeocodingService.geocode_address`: use the commercial provider exactly
when both `GEOCODING_SERVICE` and `GEOCODING_API_KEY` are truthy, and
Nominatim otherwise. Each branch runs to completion on its own upstream
outcome. -/
def geocode_address (settings : Settings) (commercialResp : GoogleResponse)
    (nominatimResp : NominatimResponse) : Except HTTPException (Int × Int) :=
  if truthyStr settings.GEOCODING_SERVICE &&
      truthyStr settings.GEOCODING_API_KEY then
    geocode_commercial commercialResp
  else
    geocode_nominatim nominatimResp

/-- A parsed GeoJSON geometry as seen by the containment check at a fixed
query point: either `shape()` raises on it, or it parses and either contains
the point or does not. -/
inductive GeomData where
  | invalid
  | valid (containsPoint : Bool)
deriving Repr, DecidableEq

/-- A stored jurisdiction boundary document. A Feature's geometry member may
be absent; a FeatureCollection holds a list of features; any other document
is treated as a direct geometry. -/
inductive Boundary where
  | featureCollection (features : List (Option GeomData))
  | feature (geometry : Option GeomData)
  | direct (g : GeomData)
deriving Repr, DecidableEq

/-- A row of the jurisdictions table as read by the geo providers. -/
structure GeoJurisdiction where
  id : Nat
  boundary : Option Boundary
deriving Repr, DecidableEq

/-- The feature loop of `SQLiteGeoProvider.point_in_jurisdictions`
(app/geo/sqlite.py): features without a geometry are skipped, a geometry that
fails to parse raises — aborting the whole jurisdiction, since the exception
handler sits outside the loop — and the loop breaks at the first geometry
containing the point. -/
def checkFeatures : List (Option GeomData) → Except Unit Bool
  | [] => .ok false
  | none :: rest => checkFeatures rest
  | some .invalid :: _ => .error ()
  | some (.valid c) :: rest => if c then .ok true else checkFeatures rest

/-- One jurisdiction's containment test in
`SQLiteGeoProvider.point_in_jurisdictions`: `.ok b` when the test completes
with verdict `b`, `.error ()` when parsing raises inside the `try:`. -/
def checkBoundary : Boundary → Except Unit Bool
  | .featureCollection features => checkFeatures features
  | .feature none => .ok false
  | .feature (some .invalid) => .error ()
  | .feature (some (.valid c)) => .ok c
  | .direct .invalid => .error ()
  | .direct (.valid c) => .ok c

/-- The per-jurisdiction step of the provider's loop: null boundaries are
skipped, a completed test appends the id on a match, and an exception is
logged and the jurisdiction skipped (`continue`). -/
def geoStep (matching_ids : List Nat) (j : GeoJurisdiction) : List Nat :=
  match j.boundary with
  | none => matching_ids
  | some b =>
    match checkBoundary b with
    | .ok true => matching_ids ++ [j.id]
    | .ok false => matching_ids
    | .error _ => matching_ids

/-- `SQLiteGeoProvider.point_in_jurisdictions` (app/geo/sqlite.py). -/
def point_in_jurisdictions (jurisdictions : List GeoJurisdiction) :
    List Nat :=
  jurisdictions.foldl geoStep []

/-- Whether the in-process provider matches a jurisdiction: its boundary is
non-null and the containment test completes with a positive verdict. -/
def jurisdictionMatches (j : GeoJurisdiction) : Bool :=
  match j.boundary with
  | none => false
  | some b =>
    match checkBoundary b with
    | .ok true => true
    | _ => false

/-- The geometry the native query reads from a boundary document: the SQL
expression takes the document's top-level geometry key, present only when the
document is a Feature carrying a geometry member; a FeatureCollection or a
direct geometry has no such key and the expression is SQL NULL. -/
def pgGeometryField : Boundary → Option GeomData
  | .featureCollection _ => none
  | .feature g => g
  | .direct _ => none

/-- One row's WHERE-clause evaluation in
`PostgresGeoProvider.districts_containing_point` (app/geo/postgres.py): a
NULL boundary or NULL extracted geometry fails the condition;
`ST_GeomFromGeoJSON` raises on an unparsable geometry, aborting the whole
query; otherwise `ST_Contains` decides the row. -/
def pgRowTest (j : GeoJurisdiction) : Except Unit Bool :=
  match j.boundary with
  | none => .ok false
  | some b =>
    match pgGeometryField b with
    | none => .ok false
    | some .invalid => .error ()
    | some (.valid c) => .ok c

/-- The accumulation of one row into the native query's result list: the row
test either aborts the query or appends the id on a positive verdict. -/
def pgStep (acc : List Nat) (j : GeoJurisdiction) : Except Unit (List Nat) := do
  let b ← pgRowTest j
  pure (if b then acc ++ [j.id] else acc)

/-- `PostgresGeoProvider.districts_containing_point`: the ids of the rows
passing the WHERE clause, a geometry parse error failing the whole query. -/
def districts_containing_point (rows : List GeoJurisdiction) :
    Except Unit (List Nat) :=
  rows.foldlM pgStep []

/-- A row of the jurisdictions table as read for response details. -/
structure JurisdictionRow where
  id : Nat
  name : String
  level : String
  description : Option String := none
deriving Repr, DecidableEq

/-- `JurisdictionWithEntities` (app/api/routes/location.py). -/
structure JurisdictionWithEntities where
  id : Nat
  name : String
  level : String
  description : Option String := none
  entities : List Entity := []
deriving Repr, DecidableEq

/-- `AddressLookupResponse` (app/api/routes/location.py): the echoed address,
the geocoded coordinates, and the matched jurisdictions with their
entities. -/
structure AddressLookupResponse where
  address : String
  coordinates : Int × Int
  jurisdictions : List JurisdictionWithEntities := []
deriving Repr, DecidableEq

/-- `lookup_representatives` (app/api/routes/location.py): geocode the
address (geocoding exceptions propagate to the caller), find the containing
jurisdictions, return the coordinates with an empty jurisdictions list when
none contain the point, and otherwise attach each resolved jurisdiction's
details and entities. -/
def lookup_representatives (settings : Settings)
    (commercialResp : GoogleResponse) (nominatimResp : NominatimResponse)
    (geoRows : List GeoJurisdiction) (jurisdictionRows : List JurisdictionRow)
    (entities : List Entity) (address : String) :
    Except HTTPException AddressLookupResponse := do
  let coords ← geocode_address settings commercialResp nominatimResp
  let jurisdiction_ids := point_in_jurisdictions geoRows
  if jurisdiction_ids.isEmpty then
    pure { address := address, coordinates := coords, jurisdictions := [] }
  else
    let jurisdictions := jurisdiction_ids.foldl (fun acc jid =>
      match jurisdictionRows.find? (fun r => r.id == jid) with
      | none => acc
      | some r => acc ++
          [{ id := r.id, name := r.name, level := r.level,
             description := r.description,
             entities := filterEntitiesByJurisdiction entities (some jid) }]) []
    pure { address := address, coordinates := coords,
           jurisdictions := jurisdictions }

theorem processStatus_total (d : StatusDistribution) (s : String) :
    (processStatus d s).total = d.total := by
  unfold processStatus
  split_ifs <;> rfl

theorem processStatus_sumBuckets (d : StatusDistribution) (s : String) :
    sumBuckets (processStatus d s) = sumBuckets d := by
  unfold processStatus sumBuckets
  split_ifs <;> simp <;> ring

theorem processStatus_neutral_eq (d : StatusDistribution) (s : String) :
    (processStatus d s).neutral =
      d.neutral - (if s = EntityStatus.NEUTRAL then 0 else 1) := by
  unfold processStatus
  split_ifs <;> simp

theorem processStatus_of_neutral (d : StatusDistribution) :
    processStatus d EntityStatus.NEUTRAL = d := by
  unfold processStatus
  simp

theorem foldl_processStatus_total (l : List (Nat × String))
    (d : StatusDistribution) :
    (l.foldl (fun d p => processStatus d p.2) d).total = d.total := by
  induction l generalizing d with
  | nil => rfl
  | cons p rest ih => rw [List.foldl_cons, ih, processStatus_total]

theorem foldl_processStatus_sumBuckets (l : List (Nat × String))
    (d : StatusDistribution) :
    sumBuckets (l.foldl (fun d p => processStatus d p.2) d) = sumBuckets d := by
  induction l generalizing d with
  | nil => rfl
  | cons p rest ih => rw [List.foldl_cons, ih, processStatus_sumBuckets]

theorem foldl_processStatus_neutral (l : List (Nat × String))
    (d : StatusDistribution) :
    (l.foldl (fun d p => processStatus d p.2) d).neutral =
      d.neutral -
        (l.countP (fun p => !(p.2 == EntityStatus.NEUTRAL)) : Int) := by
  induction l generalizing d with
  | nil => simp
  | cons p rest ih =>
    rw [List.foldl_cons, ih, processStatus_neutral_eq, List.countP_cons]
    by_cases h : p.2 = EntityStatus.NEUTRAL
    · simp [h]
    · simp only [h, if_false, beq_iff_eq, decide_not]
      simp [h]
      ring

theorem foldl_processStatus_filter (l : List (Nat × String))
    (d : StatusDistribution) :
    (l.filter (fun p => !(p.2 == EntityStatus.NEUTRAL))).foldl
        (fun d p => processStatus d p.2) d =
      l.foldl (fun d p => processStatus d p.2) d := by
  induction l generalizing d with
  | nil => rfl
  | cons p rest ih =>
    by_cases h : p.2 = EntityStatus.NEUTRAL
    · rw [List.foldl_cons]
      have hskip : processStatus d p.2 = d := by rw [h, processStatus_of_neutral]
      rw [hskip]
      simpa [List.filter_cons, h] using ih d
    · have hcond : (!(p.2 == EntityStatus.NEUTRAL)) = true := by simp [h]
      rw [List.filter_cons, if_pos hcond, List.foldl_cons, List.foldl_cons]
      exact ih (processStatus d p.2)

theorem entityStatuses_aux (records : List EntityStatusRecord) :
    ∀ acc : List (Nat × String),
      (records.map EntityStatusRecord.entity_id).Nodup →
      (∀ r ∈ records, ∀ p ∈ acc, p.1 ≠ r.entity_id) →
      records.foldl (fun d r => dictInsert d r.entity_id r.status) acc =
        acc ++ records.map (fun r => (r.entity_id, r.status)) := by
  induction records with
  | nil => intro acc _ _; simp
  | cons r rest ih =>
    intro acc hnodup hdisj
    rw [List.map_cons, List.nodup_cons] at hnodup
    have hany : acc.any (fun p => p.1 == r.entity_id) = false := by
      simp only [List.any_eq_false]
      intro p hp
      simpa using hdisj r (by simp) p hp
    have hstep : dictInsert acc r.entity_id r.status =
        acc ++ [(r.entity_id, r.status)] := by
      rw [dictInsert, hany]
      simp
    rw [List.foldl_cons, hstep,
      ih (acc ++ [(r.entity_id, r.status)]) hnodup.2 ?_]
    · simp
    · intro r2 hr2 p hp
      rcases List.mem_append.mp hp with hpa | hpb
      · exact hdisj r2 (List.mem_cons_of_mem _ hr2) p hpa
      · have hp2 : p = (r.entity_id, r.status) := by simpa using hpb
        subst hp2
        intro hcontra
        have hmem2 : r2.entity_id ∈ List.map EntityStatusRecord.entity_id rest :=
          List.mem_map_of_mem EntityStatusRecord.entity_id hr2
        rw [← hcontra] at hmem2
        exact hnodup.1 hmem2

theorem entityStatuses_of_nodup (records : List EntityStatusRecord)
    (h : (records.map EntityStatusRecord.entity_id).Nodup) :
    entityStatuses records = records.map (fun r => (r.entity_id, r.status)) := by
  simpa [entityStatuses] using entityStatuses_aux records [] h (by simp)

theorem map_pair_filter (records : List EntityStatusRecord) :
    (records.filter (fun r => !(r.status == EntityStatus.NEUTRAL))).map
        (fun r => (r.entity_id, r.status)) =
      (records.map (fun r => (r.entity_id, r.status))).filter
        (fun p => !(p.2 == EntityStatus.NEUTRAL)) := by
  induction records with
  | nil => rfl
  | cons r rest ih =>
    by_cases h : r.status = EntityStatus.NEUTRAL <;>
      simp [List.filter_cons, h, ih]

/-- C1: for a call to `calculate_status_distribution_with_neutrals` with at
most one record per entity, every record's entity belonging to the project's
jurisdiction, and `total_entity_count` equal to the number `N` of entities in
that jurisdiction, the result satisfies
`solid_approval + leaning_approval + neutral + leaning_disapproval +
solid_disapproval + unknown = total`, `total = N`, and `neutral = N` minus the
number of entities with an explicit non-neutral record; explicit neutral
records change nothing (dropping them yields the same distribution). -/
theorem C1_distribution_invariant
    (status_records : List EntityStatusRecord)
    (jurisdiction_entity_ids : List Nat) (N : Int)
    (hone : (status_records.map EntityStatusRecord.entity_id).Nodup)
    (_hmem : ∀ r ∈ status_records, r.entity_id ∈ jurisdiction_entity_ids)
    (_hN : N = (jurisdiction_entity_ids.length : Int)) :
    sumBuckets (calculate_status_distribution_with_neutrals status_records N) =
        (calculate_status_distribution_with_neutrals status_records N).total ∧
      (calculate_status_distribution_with_neutrals status_records N).total =
        N ∧
      (calculate_status_distribution_with_neutrals status_records N).neutral =
        N - (status_records.countP
          (fun r => !(r.status == EntityStatus.NEUTRAL)) : Int) ∧
      calculate_status_distribution_with_neutrals
          (status_records.filter
            (fun r => !(r.status == EntityStatus.NEUTRAL))) N =
        calculate_status_distribution_with_neutrals status_records N := by
  refine ⟨?_, ?_, ?_, ?_⟩
  · unfold calculate_status_distribution_with_neutrals
    rw [foldl_processStatus_sumBuckets, foldl_processStatus_total]
    simp [sumBuckets]
  · unfold calculate_status_distribution_with_neutrals
    rw [foldl_processStatus_total]
  · unfold calculate_status_distribution_with_neutrals
    rw [foldl_processStatus_neutral, entityStatuses_of_nodup _ hone,
      List.countP_map]
    simp [Function.comp_def]
  · have hsub : (status_records.filter
        (fun r => !(r.status == EntityStatus.NEUTRAL))).Sublist
          status_records := List.filter_sublist _
    have honef : ((status_records.filter
        (fun r => !(r.status == EntityStatus.NEUTRAL))).map
          EntityStatusRecord.entity_id).Nodup :=
      List.Nodup.sublist (hsub.map _) hone
    unfold calculate_status_distribution_with_neutrals
    rw [entityStatuses_of_nodup _ honef, entityStatuses_of_nodup _ hone,
      map_pair_filter, foldl_processStatus_filter]

/-- Witness for C1: the hypotheses hold and the conclusion evaluates at a
concrete two-record input over a three-entity jurisdiction. -/
theorem C1_distribution_invariant_witness :
    ((sampleRecords.map EntityStatusRecord.entity_id).Nodup) ∧
      (∀ r ∈ sampleRecords, r.entity_id ∈ [10, 11, 12]) ∧
      ((3 : Int) = (([10, 11, 12] : List Nat).length : Int)) ∧
      (sumBuckets (calculate_status_distribution_with_neutrals sampleRecords 3) =
          (calculate_status_distribution_with_neutrals sampleRecords 3).total ∧
        (calculate_status_distribution_with_neutrals sampleRecords 3).total =
          3 ∧
        (calculate_status_distribution_with_neutrals sampleRecords 3).neutral =
          3 - (sampleRecords.countP
            (fun r => !(r.status == EntityStatus.NEUTRAL)) : Int) ∧
        calculate_status_distribution_with_neutrals
            (sampleRecords.filter
              (fun r => !(r.status == EntityStatus.NEUTRAL))) 3 =
          calculate_status_distribution_with_neutrals sampleRecords 3) :=
  ⟨by decide, by decide, by decide,
    C1_distribution_invariant sampleRecords [10, 11, 12] 3
      (by decide) (by decide) (by decide)⟩

/-- C4: a status value matching none of the five known categories falls
through to the `unknown` bucket: processing it decrements `neutral` and
increments `unknown`, the bucket sum is preserved, and aggregating a single
such record over `N` entities yields `neutral = N - 1`, `unknown = 1`,
`total = N`. (At the Pydantic interface `EntityStatus` admits only the five
known values, so the check is carried out over raw status strings.) -/
theorem C4_unknown_status (d : StatusDistribution) (e : Nat) (s : String)
    (N : Int)
    (h1 : s ≠ EntityStatus.SOLID_APPROVAL)
    (h2 : s ≠ EntityStatus.LEANING_APPROVAL)
    (h3 : s ≠ EntityStatus.NEUTRAL)
    (h4 : s ≠ EntityStatus.LEANING_DISAPPROVAL)
    (h5 : s ≠ EntityStatus.SOLID_DISAPPROVAL) :
    processStatus d s =
        { d with neutral := d.neutral - 1, unknown := d.unknown + 1 } ∧
      sumBuckets (processStatus d s) = sumBuckets d ∧
      calculate_status_distribution_with_neutrals
          [{ entity_id := e, status := s }] N =
        { neutral := N - 1, unknown := 1, total := N } := by
  have hp : ∀ d0 : StatusDistribution, processStatus d0 s =
      { d0 with neutral := d0.neutral - 1, unknown := d0.unknown + 1 } := by
    intro d0
    simp [processStatus, h1, h2, h3, h4, h5]
  refine ⟨hp d, processStatus_sumBuckets d s, ?_⟩
  have hsingle : entityStatuses [{ entity_id := e, status := s }] = [(e, s)] := by
    simp [entityStatuses, dictInsert]
  unfold calculate_status_distribution_with_neutrals
  rw [hsingle, List.foldl_cons]
  simp [hp]

/-- Witness for C4: the status string "unknown" (the ORM column default)
matches none of the five enum values, and the conclusion evaluates with a
concrete distribution and entity count. -/
theorem C4_unknown_status_witness :
    ("unknown" ≠ EntityStatus.SOLID_APPROVAL) ∧
      ("unknown" ≠ EntityStatus.LEANING_APPROVAL) ∧
      ("unknown" ≠ EntityStatus.NEUTRAL) ∧
      ("unknown" ≠ EntityStatus.LEANING_DISAPPROVAL) ∧
      ("unknown" ≠ EntityStatus.SOLID_DISAPPROVAL) ∧
      (processStatus { neutral := 4, total := 4 } "unknown" =
          { neutral := 3, unknown := 1, total := 4 } ∧
        sumBuckets (processStatus { neutral := 4, total := 4 } "unknown") =
          sumBuckets { neutral := 4, total := 4 } ∧
        calculate_status_distribution_with_neutrals
            [{ entity_id := 5, status := "unknown" }] 4 =
          { neutral := 3, unknown := 1, total := 4 }) :=
  ⟨by decide, by decide, by decide, by decide, by decide,
    C4_unknown_status { neutral := 4, total := 4 } 5 "unknown" 4
      (by decide) (by decide) (by decide) (by decide) (by decide)⟩

/-- C2 (failing-input evaluation): `create_status_record` checks for an
existing record of the same `(entity_id, project_id)` pair only within the
provider's default page of 100 rows. On a 101-row table whose sole record for
the pair sits in position 101, the call inserts a second record: the table
ends up with two records for the pair, contradicting the at-most-one
invariant the claim states. -/
theorem C2_duplicate_pair_created :
    pairCount bigStatusTable 0 0 = 1 ∧
      pairCount (create_status_record bigStatusTable newSubmission) 0 0 = 2 := by
  constructor <;> decide

/-- C3: whenever the project id resolves to no stored project, or the project
resolves but its `jurisdiction_id` is null, or no entities belong to its
jurisdiction, `get_project_status_distribution` returns the all-zero
`StatusDistribution` (the model is a total function, so no error is raised). -/
theorem C3_empty_distribution (projects : List Project)
    (entities : List Entity) (status_records : List EntityStatusRecord)
    (project_id : Nat)
    (h : getProject projects project_id = none ∨
      ∃ p, getProject projects project_id = some p ∧
        (p.jurisdiction_id = none ∨
          filterEntitiesByJurisdiction entities p.jurisdiction_id = [])) :
    get_project_status_distribution projects entities status_records
      project_id none = {} := by
  rcases h with h | ⟨p, hp, hcase⟩
  · unfold get_project_status_distribution
    rw [h]
  · have hempty :
        filterEntitiesByJurisdiction entities p.jurisdiction_id = [] := by
      rcases hcase with hnull | he
      · rw [hnull]
        simp [filterEntitiesByJurisdiction]
      · exact he
    unfold get_project_status_distribution
    rw [hp]
    simp [hempty]

/-- Witness for C3: a stored project whose `jurisdiction_id` is null yields
the all-zero distribution on a concrete database. -/
theorem C3_empty_distribution_witness :
    (getProject [{ id := 1, jurisdiction_id := none }] 1 =
        some { id := 1, jurisdiction_id := none }) ∧
      get_project_status_distribution [{ id := 1, jurisdiction_id := none }]
        [{ id := 20, jurisdiction_id := 9 }] sampleRecords 1 none = {} :=
  ⟨by decide,
    C3_empty_distribution [{ id := 1, jurisdiction_id := none }]
      [{ id := 20, jurisdiction_id := 9 }] sampleRecords 1
      (Or.inr ⟨{ id := 1, jurisdiction_id := none }, by decide, Or.inl rfl⟩)⟩

theorem geoStep_eq (acc : List Nat) (j : GeoJurisdiction) :
    geoStep acc j = if jurisdictionMatches j then acc ++ [j.id] else acc := by
  unfold geoStep jurisdictionMatches
  cases hb : j.boundary with
  | none => simp
  | some b =>
    cases hcb : checkBoundary b with
    | error e => simp [hcb]
    | ok v => cases v <;> simp [hcb]

theorem point_in_jurisdictions_eq (js : List GeoJurisdiction) :
    point_in_jurisdictions js =
      (js.filter jurisdictionMatches).map GeoJurisdiction.id := by
  suffices h : ∀ acc, js.foldl geoStep acc =
      acc ++ (js.filter jurisdictionMatches).map GeoJurisdiction.id by
    simpa [point_in_jurisdictions] using h []
  induction js with
  | nil => intro acc; simp
  | cons j rest ih =>
    intro acc
    rw [List.foldl_cons, geoStep_eq]
    by_cases h : jurisdictionMatches j = true <;>
      simp [h, List.filter_cons, ih]

/-- C5 (failing-input evaluation): on an upstream 200 response with an empty
result list, `_geocode_nominatim`'s deliberate HTTP 404 "Address not found"
is caught by the blanket `except Exception` and re-raised as an HTTP 500, the
same status a transport failure produces — the two failure kinds are not
distinguishable by status code. -/
theorem C5_not_found_wrapped_as_500 :
    geocode_nominatim (.response 200 []) =
        .error { status_code := 500,
                 detail := "Geocoding error: 404: Address not found" } ∧
      geocode_nominatim (.transportFailure "connection timed out") =
        .error { status_code := 500,
                 detail := "Geocoding error: connection timed out" } := by
  constructor <;> rfl

/-- C6 counterexample: a FeatureCollection whose first feature's geometry
fails to parse and whose second feature is valid and contains the point — the
exception on the first feature aborts the whole jurisdiction, so the valid
feature's match is not returned, contrary to the claim. -/
theorem C6_counterexample :
    point_in_jurisdictions
        [{ id := 1,
           boundary := some (.featureCollection
             [some .invalid, some (.valid true)]) }] = [] ∧
      1 ∉ point_in_jurisdictions
        [{ id := 1,
           boundary := some (.featureCollection
             [some .invalid, some (.valid true)]) }] := by
  constructor <;> decide

/-- C6 amended: the exception handler is per jurisdiction, not per feature.
A jurisdiction whose boundary fails its test is logged and skipped without
aborting the query — removing such a row leaves the result for all other
jurisdictions unchanged — and within one FeatureCollection a valid containing
feature short-circuits the loop, so a malformed feature after it is harmless;
but a malformed feature occurring before the valid one aborts that whole
jurisdiction, so its valid features are not matched. -/
theorem C6_amended (pre post : List GeoJurisdiction) (bad : GeoJurisdiction)
    (hbad : jurisdictionMatches bad = false) :
    point_in_jurisdictions (pre ++ bad :: post) =
        point_in_jurisdictions (pre ++ post) ∧
      ∀ features, checkFeatures (some (.valid true) :: features) = .ok true := by
  constructor
  · rw [point_in_jurisdictions_eq, point_in_jurisdictions_eq]
    simp [List.filter_append, List.filter_cons, hbad]
  · intro features
    rfl

/-- Witness for C6 amended: a jurisdiction with an unparsable feature ahead
of a containing one is skipped without disturbing the surrounding matches. -/
theorem C6_amended_witness :
    point_in_jurisdictions
        [{ id := 1, boundary := some (.feature (some (.valid true))) },
         { id := 2, boundary := some (.featureCollection
             [some .invalid, some (.valid true)]) },
         { id := 3, boundary := some (.direct (.valid true)) }] =
        point_in_jurisdictions
          [{ id := 1, boundary := some (.feature (some (.valid true))) },
           { id := 3, boundary := some (.direct (.valid true)) }] ∧
      checkFeatures [some (.valid true), some .invalid] = .ok true :=
  ⟨(C6_amended [{ id := 1, boundary := some (.feature (some (.valid true))) }]
      [{ id := 3, boundary := some (.direct (.valid true)) }]
      { id := 2, boundary := some (.featureCollection
          [some .invalid, some (.valid true)]) } (by decide)).1,
    (C6_amended [{ id := 1, boundary := some (.feature (some (.valid true))) }]
      [{ id := 3, boundary := some (.direct (.valid true)) }]
      { id := 2, boundary := some (.featureCollection
          [some .invalid, some (.valid true)]) } (by decide)).2
      [some .invalid]⟩

/-- C7 counterexample: on the same single-row boundary set — a
FeatureCollection whose only feature contains the point — the in-process
backend matches the row while the native backend returns no match, because
its SQL reads only the document's top-level geometry key, which a
FeatureCollection lacks. -/
theorem C7_counterexample :
    point_in_jurisdictions
        [{ id := 1,
           boundary := some (.featureCollection [some (.valid true)]) }] =
        [1] ∧
      districts_containing_point
        [{ id := 1,
           boundary := some (.featureCollection [some (.valid true)]) }] =
        .ok [] := by
  constructor <;> rfl

theorem pgStep_ok (acc : List Nat) (j : GeoJurisdiction) (b : Bool)
    (h : pgRowTest j = .ok b) :
    pgStep acc j = .ok (if b then acc ++ [j.id] else acc) := by
  unfold pgStep
  rw [h]
  rfl

theorem districts_aux (rows : List GeoJurisdiction)
    (h : ∀ j ∈ rows, ∀ b, j.boundary = some b →
      ∃ c, b = Boundary.feature (some (GeomData.valid c))) :
    ∀ acc : List Nat,
      (rows.foldlM pgStep acc : Except Unit (List Nat)) =
        .ok (acc ++ (rows.filter jurisdictionMatches).map GeoJurisdiction.id) := by
  induction rows with
  | nil => intro acc; simp; rfl
  | cons j rest ih =>
    intro acc
    have hrest : ∀ j2 ∈ rest, ∀ b, j2.boundary = some b →
        ∃ c, b = Boundary.feature (some (GeomData.valid c)) :=
      fun j2 hj2 => h j2 (List.mem_cons_of_mem _ hj2)
    rw [List.foldlM_cons]
    cases hb : j.boundary with
    | none =>
      have hpg : pgRowTest j = .ok false := by
        unfold pgRowTest
        rw [hb]
      have hm : jurisdictionMatches j = false := by
        unfold jurisdictionMatches
        rw [hb]
      rw [pgStep_ok acc j false hpg]
      show (rest.foldlM pgStep acc : Except Unit (List Nat)) = _
      rw [ih hrest acc]
      simp [List.filter_cons, hm]
    | some b =>
      obtain ⟨c, rfl⟩ := h j (by simp) b hb
      have hpg : pgRowTest j = .ok c := by
        unfold pgRowTest
        rw [hb]
        rfl
      have hm : jurisdictionMatches j = c := by
        unfold jurisdictionMatches
        rw [hb]
        cases c <;> rfl
      rw [pgStep_ok acc j c hpg]
      cases c with
      | false =>
        show (rest.foldlM pgStep acc : Except Unit (List Nat)) = _
        rw [ih hrest acc]
        simp [List.filter_cons, hm]
      | true =>
        show (rest.foldlM pgStep (acc ++ [j.id]) : Except Unit (List Nat)) = _
        rw [ih hrest (acc ++ [j.id])]
        simp [List.filter_cons, hm]

/-- C7 amended: backend parity holds on boundary sets whose non-null
boundaries are all bare Features with parseable geometries — there the native
query returns exactly the in-process result. FeatureCollection and
direct-geometry boundaries are matched only by the in-process backend. -/
theorem C7_amended (rows : List GeoJurisdiction)
    (h : ∀ j ∈ rows, ∀ b, j.boundary = some b →
      ∃ c, b = Boundary.feature (some (GeomData.valid c))) :
    districts_containing_point rows = .ok (point_in_jurisdictions rows) := by
  rw [point_in_jurisdictions_eq]
  simpa [districts_containing_point] using districts_aux rows h []

/-- Witness for C7 amended: a three-row table of bare-Feature boundaries on
which both backends agree and the agreed match list evaluates to the
containing row. -/
theorem C7_amended_witness :
    districts_containing_point
        [{ id := 1, boundary := some (.feature (some (.valid true))) },
         { id := 2, boundary := none },
         { id := 3, boundary := some (.feature (some (.valid false))) }] =
        .ok (point_in_jurisdictions
          [{ id := 1, boundary := some (.feature (some (.valid true))) },
           { id := 2, boundary := none },
           { id := 3, boundary := some (.feature (some (.valid false))) }]) ∧
      point_in_jurisdictions
        [{ id := 1, boundary := some (.feature (some (.valid true))) },
         { id := 2, boundary := none },
         { id := 3, boundary := some (.feature (some (.valid false))) }] =
        [1] :=
  ⟨C7_amended
      [{ id := 1, boundary := some (.feature (some (.valid true))) },
       { id := 2, boundary := none },
       { id := 3, boundary := some (.feature (some (.valid false))) }]
      (by
        intro j hj b hb
        simp only [List.mem_cons, List.not_mem_nil, or_false] at hj
        rcases hj with rfl | rfl | rfl
        · exact ⟨true, (Option.some.inj hb).symm⟩
        · exact Option.noConfusion hb
        · exact ⟨false, (Option.some.inj hb).symm⟩),
    by decide⟩

/-- C8: when geocoding succeeds with coordinates that no stored boundary
contains, `lookup_representatives` returns a structured response carrying
those coordinates and an empty jurisdictions list — not an error. -/
theorem C8_resolved_but_nowhere (settings : Settings)
    (commercialResp : GoogleResponse) (nominatimResp : NominatimResponse)
    (geoRows : List GeoJurisdiction) (jurisdictionRows : List JurisdictionRow)
    (entities : List Entity) (address : String) (coords : Int × Int)
    (hgeo : geocode_address settings commercialResp nominatimResp = .ok coords)
    (hnone : point_in_jurisdictions geoRows = []) :
    lookup_representatives settings commercialResp nominatimResp geoRows
        jurisdictionRows entities address =
      .ok { address := address, coordinates := coords, jurisdictions := [] } := by
  unfold lookup_representatives
  rw [hgeo]
  simp [hnone]

/-- Witness for C8: with the free provider resolving the address and a single
stored boundary not containing the point, the lookup returns the coordinates
and no jurisdictions. -/
theorem C8_resolved_but_nowhere_witness :
    geocode_address {} (.transportFailure "unused") (.response 200 [(41, 87)]) =
        .ok (41, 87) ∧
      point_in_jurisdictions
        [{ id := 1, boundary := some (.feature (some (.valid false))) }] =
        [] ∧
      lookup_representatives {} (.transportFailure "unused")
        (.response 200 [(41, 87)])
        [{ id := 1, boundary := some (.feature (some (.valid false))) }]
        [{ id := 1, name := "Chicago", level := "city" }]
        [{ id := 20, jurisdiction_id := 1 }] "233 S Wacker Dr" =
        .ok { address := "233 S Wacker Dr", coordinates := (41, 87),
              jurisdictions := [] } :=
  ⟨rfl, rfl,
    C8_resolved_but_nowhere {} (.transportFailure "unused")
      (.response 200 [(41, 87)])
      [{ id := 1, boundary := some (.feature (some (.valid false))) }]
      [{ id := 1, name := "Chicago", level := "city" }]
      [{ id := 20, jurisdiction_id := 1 }] "233 S Wacker Dr" (41, 87)
      rfl rfl⟩

/-- C9: provider selection in `geocode_address` is a static configuration
switch: with a truthy commercial service and key the commercial provider's
outcome is returned unchanged — including its errors, so there is no runtime
failover to the free provider — and otherwise the free provider's outcome is
returned unchanged, whatever it is. -/
theorem C9_static_provider_selection (settings : Settings)
    (commercialResp : GoogleResponse) (nominatimResp : NominatimResponse) :
    ((truthyStr settings.GEOCODING_SERVICE &&
        truthyStr settings.GEOCODING_API_KEY) = true →
      geocode_address settings commercialResp nominatimResp =
        geocode_commercial commercialResp) ∧
    ((truthyStr settings.GEOCODING_SERVICE &&
        truthyStr settings.GEOCODING_API_KEY) = false →
      geocode_address settings commercialResp nominatimResp =
        geocode_nominatim nominatimResp) ∧
    (∀ err : HTTPException,
      (truthyStr settings.GEOCODING_SERVICE &&
        truthyStr settings.GEOCODING_API_KEY) = true →
      geocode_commercial commercialResp = .error err →
      geocode_address settings commercialResp nominatimResp = .error err) := by
  refine ⟨fun h => ?_, fun h => ?_, fun err h herr => ?_⟩
  · simp [geocode_address, h]
  · simp [geocode_address, h]
  · simp [geocode_address, h, herr]

/-- Witness for C9: with both settings configured, a commercial transport
failure surfaces as that provider's HTTP 500 even though the free provider
would have succeeded on the same inputs — no failover happens. -/
theorem C9_static_provider_selection_witness :
    geocode_address
        { GEOCODING_SERVICE := some "google", GEOCODING_API_KEY := some "key" }
        (.transportFailure "boom") (.response 200 [(41, 87)]) =
        .error { status_code := 500, detail := "Geocoding error: boom" } ∧
      geocode_nominatim (.response 200 [(41, 87)]) = .ok (41, 87) :=
  ⟨(C9_static_provider_selection
      { GEOCODING_SERVICE := some "google", GEOCODING_API_KEY := some "key" }
      (.transportFailure "boom") (.response 200 [(41, 87)])).2.2
      { status_code := 500, detail := "Geocoding error: boom" }
      (by decide) rfl,
    rfl⟩

/-- C10: when the stored jurisdiction rows carry pairwise distinct ids, the
list returned by `point_in_jurisdictions` contains each id at most once, even
when several features of one FeatureCollection contain the point — the
feature loop breaks at the first hit and each row contributes its id at most
once. -/
theorem C10_no_duplicate_ids (js : List GeoJurisdiction)
    (h : (js.map GeoJurisdiction.id).Nodup) :
    (point_in_jurisdictions js).Nodup := by
  rw [point_in_jurisdictions_eq]
  exact h.sublist ((List.filter_sublist js).map GeoJurisdiction.id)

/-- Witness for C10: a FeatureCollection with two features containing the
point still contributes its jurisdiction id once. -/
theorem C10_no_duplicate_ids_witness :
    ((([{ id := 5, boundary := some (.featureCollection
          [some (.valid true), some (.valid true)]) }] :
        List GeoJurisdiction).map GeoJurisdiction.id).Nodup) ∧
      (point_in_jurisdictions
        [{ id := 5, boundary := some (.featureCollection
            [some (.valid true), some (.valid true)]) }]).Nodup ∧
      point_in_jurisdictions
        [{ id := 5, boundary := some (.featureCollection
            [some (.valid true), some (.valid true)]) }] = [5] :=
  ⟨by decide,
    C10_no_duplicate_ids
      [{ id := 5, boundary := some (.featureCollection
          [some (.valid true), some (.valid true)]) }] (by decide),
    by decide⟩

end OpenAdvocacy
